import Mathlib

/-!
Shallow embedding of the data-profiling engine of the repository
(`utils/data_scanner.py`: class `DataScanner`; `utils/visualization_engine.py`:
class `VisualizationEngine`).  A dataset is a rectangular table of named,
single-dtype columns; cells are missing, numeric or text.  Numeric cell values
are embedded as rationals (pandas float arithmetic on the integer-valued test
data is exact); pandas NaN results are embedded as `Option.none`.
The categorical regex counts, datetime statistics, standard deviations and the
per-text-column value-pattern signatures of the source are referenced by no
claim and are outside this embedding.
-/

/-- A single cell of a tabular dataset: missing (NaN/None), numeric, or text. -/
inductive Cell where
  | null : Cell
  | num : ℚ → Cell
  | str : String → Cell
deriving DecidableEq

/-- The dtype of a column, as pandas infers it: numeric or object (text). -/
inductive Dtype where
  | num : Dtype
  | obj : Dtype
deriving DecidableEq

/-- A named column: its dtype and its cells, one per row. -/
structure Column where
  name : String
  dtype : Dtype
  cells : List Cell
deriving DecidableEq

instance : Inhabited Column := ⟨⟨"", Dtype.obj, []⟩⟩

/-- A dataset: an ordered list of columns.  Rectangularity (all columns the
same length) is the separate predicate `DataFrame.Rect`. -/
structure DataFrame where
  cols : List Column
deriving DecidableEq

/-- pandas isnull on one cell. -/
def Cell.isNull : Cell → Bool
  | .null => true
  | _ => false

/-- pd.to_numeric(x, errors=coerce) on one cell of a numeric-dtype column:
numeric cells keep their value, everything else coerces to NaN (`none`). -/
def Cell.toNum : Cell → Option ℚ
  | .num q => some q
  | _ => none

/-- series.dropna(): the non-missing cells, in order. -/
def Column.nonNull (c : Column) : List Cell :=
  c.cells.filter (fun x => !x.isNull)

/-- pd.to_numeric(series, errors=coerce).dropna(): the numeric values of the
column, in order. -/
def Column.numericValues (c : Column) : List ℚ :=
  c.cells.filterMap Cell.toNum

/-- series.isnull().sum(): how many cells are missing. -/
def Column.nullCount (c : Column) : ℕ :=
  (c.cells.filter Cell.isNull).length

/-- series.isnull().any(): whether any cell is missing. -/
def Column.hasNull (c : Column) : Bool :=
  c.cells.any Cell.isNull

/-- series.nunique(): the number of distinct non-missing values. -/
def Column.nunique (c : Column) : ℕ :=
  c.nonNull.dedup.length

/-- df.shape[0]: the row count (the length of the first column; `Rect` makes
every column this length). -/
def DataFrame.nrows (df : DataFrame) : ℕ :=
  (df.cols.head?.map (fun c => c.cells.length)).getD 0

/-- df.shape[1]: the column count. -/
def DataFrame.ncols (df : DataFrame) : ℕ :=
  df.cols.length

/-- Rectangularity: every column has exactly `nrows` cells. -/
def DataFrame.Rect (df : DataFrame) : Prop :=
  ∀ c ∈ df.cols, c.cells.length = df.nrows

instance (df : DataFrame) : Decidable df.Rect :=
  List.decidableBAll _ df.cols

/-- df.empty: true when either axis has length zero. -/
def DataFrame.isEmpty (df : DataFrame) : Bool :=
  df.cols.isEmpty || df.nrows == 0

/-- list(df.columns). -/
def DataFrame.colNames (df : DataFrame) : List String :=
  df.cols.map Column.name

/-- df.isnull().sum().sum(): the number of missing cells in the dataset. -/
def DataFrame.nullCells (df : DataFrame) : ℕ :=
  (df.cols.map Column.nullCount).sum

/-- df.shape[0] * df.shape[1]: the number of cells. -/
def DataFrame.totalCells (df : DataFrame) : ℕ :=
  df.nrows * df.ncols

/-- df.select_dtypes(include=[np.number]): the numeric columns, in order. -/
def DataFrame.numericCols (df : DataFrame) : List Column :=
  df.cols.filter (fun c => c.dtype == Dtype.num)

/-- Row `i` of the dataset, read across the columns. -/
def DataFrame.row (df : DataFrame) (i : ℕ) : List Cell :=
  df.cols.map (fun c => c.cells.getD i Cell.null)

/-- All rows, in order. -/
def DataFrame.rowList (df : DataFrame) : List (List Cell) :=
  (List.range df.nrows).map df.row

/-- Counts the rows equal to some earlier row, accumulating the rows seen so
far (pandas duplicated() with keep=first, summed). -/
def dupCountAux : List (List Cell) → List (List Cell) → ℕ
  | _, [] => 0
  | seen, r :: rest => (if r ∈ seen then 1 else 0) + dupCountAux (r :: seen) rest

/-- df.duplicated().sum(): the number of rows that repeat an earlier row. -/
def DataFrame.duplicateRows (df : DataFrame) : ℕ :=
  dupCountAux [] df.rowList

/-- pandas Series.quantile(p) with the default linear interpolation: on the
sorted values, position h = p*(n-1) is split into whole part i and fraction g,
and the result interpolates between the i-th and (i+1)-th sorted values. -/
def quantile (l : List ℚ) (p : ℚ) : ℚ :=
  let s := l.insertionSort (· ≤ ·)
  let h : ℚ := p * ((l.length : ℚ) - 1)
  let i : ℕ := (⌊h⌋).toNat
  let g : ℚ := h - (i : ℚ)
  let xi := s.getD i 0
  let xi1 := s.getD (i + 1) xi
  xi + g * (xi1 - xi)

/-- The outlier report of `DataScanner._detect_outliers`. -/
structure OutlierInfo where
  count : ℕ
  percentage : ℚ
  lower_bound : ℚ
  upper_bound : ℚ
  outlier_values : List ℚ
deriving DecidableEq

/-- DataScanner._detect_outliers: IQR-rule outlier detection on the numeric
values of a column. -/
def detect_outliers (series : List ℚ) : OutlierInfo :=
  let q1 := quantile series (1/4)
  let q3 := quantile series (3/4)
  let iqr := q3 - q1
  let lower := q1 - 3/2 * iqr
  let upper := q3 + 3/2 * iqr
  let outliers := series.filter (fun x => decide (x < lower) || decide (upper < x))
  { count := outliers.length
    percentage := if 0 < series.length then (outliers.length : ℚ) / series.length * 100 else 0
    lower_bound := lower
    upper_bound := upper
    outlier_values := outliers.take 20 }

/-- The numeric extension of a column analysis (populated only when the column
has numeric dtype and at least one non-missing value). -/
structure NumericStats where
  min : ℚ
  max : ℚ
  mean : ℚ
  median : ℚ
  q25 : ℚ
  q75 : ℚ
  outliers : OutlierInfo
deriving DecidableEq

/-- The result record of `DataScanner.analyze_column`. -/
structure ColumnAnalysis where
  column_name : String
  dtype : Dtype
  count : ℕ
  null_count : ℕ
  null_percentage : ℚ
  unique_count : ℕ
  unique_percentage : ℚ
  numeric_stats : Option NumericStats
deriving DecidableEq

/-- DataScanner.analyze_column: per-column analysis.  An unknown column name
yields the error result of the source; otherwise the base statistics are
computed, and for a numeric-dtype column with at least one non-missing value
the numeric extension (including the outlier report) is added. -/
def analyze_column (df : DataFrame) (column : String) : Except String ColumnAnalysis :=
  match df.cols.find? (fun c => c.name == column) with
  | none => .error ("Column \x27" ++ column ++ "\x27 not found")
  | some c =>
    let n := c.cells.length
    let base : ColumnAnalysis :=
      { column_name := column
        dtype := c.dtype
        count := n
        null_count := c.nullCount
        null_percentage := if 0 < n then (c.nullCount : ℚ) / n * 100 else 0
        unique_count := c.nunique
        unique_percentage := if 0 < n then (c.nunique : ℚ) / n * 100 else 0
        numeric_stats := none }
    match c.dtype with
    | Dtype.obj => .ok base
    | Dtype.num =>
      match c.numericValues with
      | [] => .ok base
      | v :: rest =>
        let st : NumericStats :=
          { min := rest.foldl Min.min v
            max := rest.foldl Max.max v
            mean := (v :: rest).sum / ((v :: rest).length : ℚ)
            median := quantile (v :: rest) (1/2)
            q25 := quantile (v :: rest) (1/4)
            q75 := quantile (v :: rest) (3/4)
            outliers := detect_outliers (v :: rest) }
        .ok { base with numeric_stats := some st }

/-- The result record of `DataScanner.scan_overview` (memory usage and the
dtype dictionary of the source are not modelled). -/
structure Overview where
  nrows : ℕ
  ncols : ℕ
  columns : List String
  null_counts : List (String × ℕ)
  duplicate_rows : ℕ
  numeric_columns : List String
  categorical_columns : List String
  data_quality_score : ℚ
deriving DecidableEq

/-- The overview record computed on a dataset that passed the emptiness check
(the body of `scan_overview` after its guard). -/
def overview_core (df : DataFrame) : Overview :=
  { nrows := df.nrows
    ncols := df.ncols
    columns := df.colNames
    null_counts := df.cols.map (fun c => (c.name, c.nullCount))
    duplicate_rows := df.duplicateRows
    numeric_columns := df.numericCols.map Column.name
    categorical_columns := (df.cols.filter (fun c => c.dtype == Dtype.obj)).map Column.name
    data_quality_score :=
      if 0 < df.totalCells then
        ((df.totalCells : ℚ) - df.nullCells) / df.totalCells * 100
      else 0 }

/-- DataScanner.scan_overview: the dataset-level overview, or the error result
of the source when the dataset is empty. -/
def scan_overview (df : DataFrame) : Except String Overview :=
  if df.isEmpty then .error "No data to analyze"
  else .ok (overview_core df)

/-- The missing-data pattern summary of `DataScanner._analyze_missing_patterns`.
The percentage is `none` (NaN) when the dataset has zero cells, as the
division in the source then produces NaN. -/
structure MissingPatterns where
  columns_with_missing : List (String × ℕ)
  rows_with_missing : ℕ
  total_missing_cells : ℕ
  missing_percentage : Option ℚ
deriving DecidableEq

/-- DataScanner._analyze_missing_patterns. -/
def analyze_missing_patterns (df : DataFrame) : MissingPatterns :=
  { columns_with_missing :=
      ((df.cols.map (fun c => (c.name, c.nullCount))).filter
        (fun p => 0 < p.2)).insertionSort (fun a b => b.2 ≤ a.2)
    rows_with_missing := (df.rowList.filter (fun r => r.any Cell.isNull)).length
    total_missing_cells := df.nullCells
    missing_percentage :=
      if 0 < df.totalCells then some ((df.nullCells : ℚ) / df.totalCells * 100)
      else none }

/-- The duplicate-pattern summary of `DataScanner._analyze_duplicate_patterns`. -/
structure DuplicatePatterns where
  duplicate_rows : ℕ
  duplicate_percentage : ℚ
  potential_id_columns : List String
deriving DecidableEq

/-- DataScanner._analyze_duplicate_patterns: duplicate-row statistics and the
columns whose every value is distinct and non-missing. -/
def analyze_duplicate_patterns (df : DataFrame) : DuplicatePatterns :=
  { duplicate_rows := df.duplicateRows
    duplicate_percentage :=
      if 0 < df.nrows then (df.duplicateRows : ℚ) / df.nrows * 100 else 0
    potential_id_columns :=
      (df.cols.filter (fun c => c.nunique == df.nrows && !c.hasNull)).map Column.name }

/-- The result record of `DataScanner.detect_patterns` (the per-text-column
value-pattern signatures of the source are referenced by no claim and are not
modelled). -/
structure PatternResult where
  missing_data_patterns : MissingPatterns
  duplicate_patterns : DuplicatePatterns
deriving DecidableEq

/-- DataScanner.detect_patterns: bundles the pattern analyses; it performs no
emptiness check of its own. -/
def detect_patterns (df : DataFrame) : PatternResult :=
  { missing_data_patterns := analyze_missing_patterns df
    duplicate_patterns := analyze_duplicate_patterns df }

/-- Paired complete observations of two cell lists: positions where both
entries are numeric (pandas corr computes pairwise-complete correlations). -/
def pairedValues (xs ys : List Cell) : List (ℚ × ℚ) :=
  (xs.zip ys).filterMap (fun p =>
    match p.1.toNum, p.2.toNum with
    | some a, some b => some (a, b)
    | _, _ => none)

/-- Pearson correlation of two cell lists over the paired complete
observations, as pandas DataFrame.corr computes it; `none` embeds the NaN
that pandas produces when a column is constant (zero variance) or no paired
observation exists. -/
noncomputable def pearson (xs ys : List Cell) : Option ℝ :=
  let ps := pairedValues xs ys
  if ps.length = 0 then none
  else
    let n : ℝ := (ps.length : ℝ)
    let xb : ℝ := (ps.map (fun p => (p.1 : ℝ))).sum / n
    let yb : ℝ := (ps.map (fun p => (p.2 : ℝ))).sum / n
    let sxx : ℝ := (ps.map (fun p => ((p.1 : ℝ) - xb) ^ 2)).sum
    let syy : ℝ := (ps.map (fun p => ((p.2 : ℝ) - yb) ^ 2)).sum
    let sxy : ℝ := (ps.map (fun p => ((p.1 : ℝ) - xb) * ((p.2 : ℝ) - yb))).sum
    if sxx = 0 ∨ syy = 0 then none
    else some (sxy / (Real.sqrt sxx * Real.sqrt syy))

/-- DataScanner._correlation_strength: the qualitative band of an absolute
correlation value. -/
noncomputable def correlation_strength (v : ℝ) : String :=
  if 0.8 ≤ v then "Very Strong"
  else if 0.6 ≤ v then "Strong"
  else if 0.4 ≤ v then "Moderate"
  else if 0.2 ≤ v then "Weak"
  else "Very Weak"

/-- One entry of the strong-correlation list of `find_correlations`. -/
structure CorrEntry where
  column1 : String
  column2 : String
  correlation : ℝ
  strength : String

/-- The result record of `DataScanner.find_correlations` (the raw matrix
dictionary of the source is recoverable from `pearson` and is not stored). -/
structure CorrResult where
  strong_correlations : List CorrEntry
  avg_correlation : Option ℝ

/-- The strictly-upper-triangle index pairs (i, j) with i < j < n, enumerated
exactly as the nested loops of the source (i ascending, then j from i+1). -/
def upperTriangle (n : ℕ) : List (ℕ × ℕ) :=
  (List.range n).flatMap (fun i => ((List.range n).filter (fun j => i < j)).map (fun j => (i, j)))

/-- The correlation-matrix entry of a dataset at numeric-column indices (i, j). -/
noncomputable def corrAt (df : DataFrame) (i j : ℕ) : Option ℝ :=
  pearson (df.numericCols.getD i default).cells (df.numericCols.getD j default).cells

/-- One iteration of the nested loops of `find_correlations` at index pair p:
the strong-correlation entry when the absolute matrix entry reaches the
threshold (a NaN entry never does), and nothing otherwise. -/
noncomputable def corrEntry? (df : DataFrame) (threshold : ℝ) (p : ℕ × ℕ) : Option CorrEntry :=
  match corrAt df p.1 p.2 with
  | some v =>
    if threshold ≤ |v| then
      some { column1 := (df.numericCols.getD p.1 default).name
             column2 := (df.numericCols.getD p.2 default).name
             correlation := v
             strength := correlation_strength |v| }
    else none
  | none => none

/-- The strong-correlation list of `find_correlations`: the nested loops over
the strictly-upper triangle, keeping the entries that reach the threshold. -/
noncomputable def strongList (df : DataFrame) (threshold : ℝ) : List CorrEntry :=
  (upperTriangle df.numericCols.length).filterMap (corrEntry? df threshold)

/-- The mean of the strictly-upper-triangular correlation-matrix entries
(np.triu_indices_from with k=1); `none` embeds the NaN a NaN entry
propagates into the numpy mean. -/
noncomputable def avgVal (df : DataFrame) : Option ℝ :=
  let upper := (upperTriangle df.numericCols.length).map (fun p => corrAt df p.1 p.2)
  if upper.any Option.isNone then none
  else some ((upper.filterMap id).sum / (upper.length : ℝ))

/-- DataScanner.find_correlations: the error result of the source when fewer
than 2 numeric columns exist; otherwise the strong-correlation list and the
mean upper-triangle correlation. -/
noncomputable def find_correlations (df : DataFrame) (threshold : ℝ) : Except String CorrResult :=
  if df.numericCols.length < 2 then
    .error "Need at least 2 numeric columns for correlation analysis"
  else
    .ok { strong_correlations := strongList df threshold
          avg_correlation := avgVal df }

/-- The insight strings of the overall-quality rule of `generate_insights`
(message text abbreviates the formatted string of the source; the rule fires
exactly when the quality score is below 80). -/
def quality_insights (ov : Overview) : List String :=
  if ov.data_quality_score < 80 then
    ["Data quality score is " ++ toString ov.data_quality_score ++ "% - consider cleaning missing values"]
  else []

/-- The insight strings of the duplicate-row rule of `generate_insights`. -/
def duplicate_insights (ov : Overview) : List String :=
  if 0 < ov.duplicate_rows then
    ["Found " ++ toString ov.duplicate_rows ++ " duplicate rows - consider deduplication"]
  else []

/-- The per-column insight strings of `generate_insights` for one analysis
record: missing-data warning (null percentage above 50), likely-identifier
note (unique percentage above 95 and more than 10 rows), outlier warning
(outlier percentage above 10; the outlier report exists only for numeric
columns with a non-missing value). -/
def column_insights_of (a : ColumnAnalysis) : List String :=
  (if 50 < a.null_percentage then
    ["Column " ++ a.column_name ++ " has " ++ toString a.null_percentage ++ "% missing values"]
   else []) ++
  (if 95 < a.unique_percentage ∧ 10 < a.count then
    ["Column " ++ a.column_name ++ " might be a unique identifier"]
   else []) ++
  (match a.numeric_stats with
   | some st =>
     if 10 < st.outliers.percentage then
       ["Column " ++ a.column_name ++ " has " ++ toString st.outliers.percentage ++ "% outliers"]
     else []
   | none => [])

/-- The per-column insight strings of `generate_insights`, looping over the
column names as the source does. -/
def column_insights (df : DataFrame) : List String :=
  df.colNames.flatMap (fun name =>
    match analyze_column df name with
    | .ok a => column_insights_of a
    | .error _ => [])

/-- The correlation insight strings of `generate_insights`: at most the top 3
strong correlations at the default threshold 0.5, when at least 2 numeric
columns exist. -/
noncomputable def correlation_insights (df : DataFrame) : List String :=
  if 2 ≤ df.numericCols.length then
    match find_correlations df (1/2) with
    | .ok r => (r.strong_correlations.take 3).map (fun e =>
        "Strong correlation between " ++ e.column1 ++ " and " ++ e.column2)
    | .error _ => []
  else []

/-- DataScanner.generate_insights: the single no-data message on an empty
dataset; otherwise the applicable rules fire in the fixed source order
(quality, duplicates, per-column, correlations) and the list is truncated to
the first 10 entries. -/
noncomputable def generate_insights (df : DataFrame) : List String :=
  if df.isEmpty then ["No data available for analysis"]
  else
    (quality_insights (overview_core df) ++ duplicate_insights (overview_core df) ++
      column_insights df ++ correlation_insights df).take 10

/-- The instance state of a DataScanner object: the stored dataset snapshot
and the two auxiliary fields initialised by the constructor (no method of
the source ever writes an instance field after construction, so every method below
passes the state through unchanged, by translation of its body). -/
structure ScannerState where
  df : DataFrame
  analysis_results : List (String × ColumnAnalysis)
  insights : List String

/-- DataScanner.__init__: stores a copy of the supplied dataset (an absent
dataset becomes the empty one) and empty auxiliary fields. -/
def DataScanner.init (df : Option DataFrame) : ScannerState :=
  { df := df.getD ⟨[]⟩, analysis_results := [], insights := [] }

/-- A call of scan_overview on an instance: reads self.df, writes nothing. -/
def scan_overview_call (s : ScannerState) : ScannerState × Except String Overview :=
  (s, scan_overview s.df)

/-- A call of analyze_column on an instance: reads self.df, writes nothing. -/
def analyze_column_call (s : ScannerState) (column : String) :
    ScannerState × Except String ColumnAnalysis :=
  (s, analyze_column s.df column)

/-- A call of find_correlations on an instance: reads self.df, writes nothing. -/
noncomputable def find_correlations_call (s : ScannerState) (t : ℝ) :
    ScannerState × Except String CorrResult :=
  (s, find_correlations s.df t)

/-- A call of detect_patterns on an instance: reads self.df, writes nothing. -/
def detect_patterns_call (s : ScannerState) : ScannerState × PatternResult :=
  (s, detect_patterns s.df)

/-- A call of generate_insights on an instance: reads self.df, writes nothing. -/
noncomputable def generate_insights_call (s : ScannerState) : ScannerState × List String :=
  (s, generate_insights s.df)

/-- A chart object: the chart kind that was dispatched and the data series
handed to the charting library. -/
structure Figure where
  kind : String
  data : List Cell
deriving DecidableEq

/-- The chart-type dispatch of `create_column_chart`: auto-detection when
`auto` is requested (numeric dtype → histogram; otherwise bar for at most 20
distinct values, else histogram), and unrecognised type strings fall back to
a histogram. -/
def chart_kind (c : Column) (chart_type : String) : String :=
  let ct :=
    if chart_type == "auto" then
      if c.dtype == Dtype.num then "histogram"
      else if c.nunique ≤ 20 then "bar"
      else "histogram"
    else chart_type
  if ct == "histogram" || ct == "bar" || ct == "box" || ct == "line" || ct == "scatter"
  then ct else "histogram"

/-- VisualizationEngine.create_column_chart: `none` when the column is absent
or has no non-missing value; otherwise the plotting helper matching the
dispatched chart kind runs inside a try/except whose exception branch returns
`none`.  The plotting helpers wrap the outside charting library, supplied
here as the oracle `px` (an `Except.error` result embeds a raised
exception). -/
def create_column_chart (px : String → List Cell → Except String Figure)
    (df : DataFrame) (column_name : String) (chart_type : String) : Option Figure :=
  match df.cols.find? (fun c => c.name == column_name) with
  | none => none
  | some c =>
    if c.nonNull.length = 0 then none
    else
      match px (chart_kind c chart_type) c.nonNull with
      | .ok f => some f
      | .error _ => none

/-- The instance state of a VisualizationEngine object: the stored dataset
reference (utils/visualization_engine.py stores the supplied dataset without
copying; no method writes it). -/
structure VizState where
  df : DataFrame

/-- VisualizationEngine.__init__. -/
def VisualizationEngine.init (df : DataFrame) : VizState :=
  { df := df }

/-- A call of create_column_chart on an instance: reads self.df, writes
nothing. -/
def create_column_chart_call (px : String → List Cell → Except String Figure)
    (s : VizState) (column_name chart_type : String) : VizState × Option Figure :=
  (s, create_column_chart px s.df column_name chart_type)

/-- One operation on the pair of profiling instances. -/
inductive Op where
  | scanOverview : Op
  | analyzeColumn : String → Op
  | findCorrelations : ℝ → Op
  | detectPatterns : Op
  | generateInsights : Op
  | createColumnChart : String → String → Op

/-- The dataset of the caller together with a DataScanner and a VisualizationEngine
instance constructed on it. -/
structure World where
  caller : DataFrame
  scanner : ScannerState
  viz : VizState

/-- Fresh instances on the dataset of the caller. -/
def World.init (df : DataFrame) : World :=
  { caller := df
    scanner := DataScanner.init (some df)
    viz := VisualizationEngine.init df }

/-- Executes one operation, keeping the instance states the calls return. -/
noncomputable def World.step (px : String → List Cell → Except String Figure) :
    World → Op → World
  | w, .scanOverview => { w with scanner := (scan_overview_call w.scanner).1 }
  | w, .analyzeColumn c => { w with scanner := (analyze_column_call w.scanner c).1 }
  | w, .findCorrelations t => { w with scanner := (find_correlations_call w.scanner t).1 }
  | w, .detectPatterns => { w with scanner := (detect_patterns_call w.scanner).1 }
  | w, .generateInsights => { w with scanner := (generate_insights_call w.scanner).1 }
  | w, .createColumnChart a b => { w with viz := (create_column_chart_call px w.viz a b).1 }

/-- The example numeric column age = [20, 21, 22, 23, 1000]. -/
def ageColumn : Column :=
  ⟨"age", Dtype.num, [.num 20, .num 21, .num 22, .num 23, .num 1000]⟩

/-- A dataset holding only the age column. -/
def ageDf : DataFrame := ⟨[ageColumn]⟩

/-- The example numeric column a = [1, 2, 3, 4, 5]. -/
def colA : Column := ⟨"a", Dtype.num, [.num 1, .num 2, .num 3, .num 4, .num 5]⟩

/-- The example numeric column b, identical to a. -/
def colB : Column := ⟨"b", Dtype.num, [.num 1, .num 2, .num 3, .num 4, .num 5]⟩

/-- A dataset with the two identical numeric columns a and b. -/
def abDf : DataFrame := ⟨[colA, colB]⟩

/-- A five-row text column of distinct non-missing names. -/
def nameColumn : Column :=
  ⟨"name", Dtype.obj, [.str "ann", .str "bob", .str "cat", .str "dan", .str "eve"]⟩

/-- A dataset holding only the name column. -/
def nameDf : DataFrame := ⟨[nameColumn]⟩

/-- The dataset with no columns at all. -/
def emptyDf : DataFrame := ⟨[]⟩

/-- A dataset with two columns and zero rows. -/
def zeroRowDf : DataFrame := ⟨[⟨"x", Dtype.num, []⟩, ⟨"y", Dtype.obj, []⟩]⟩

theorem nullCells_le_totalCells (df : DataFrame) (hrect : df.Rect) :
    df.nullCells ≤ df.totalCells := by
  have hcol : ∀ x ∈ df.cols.map Column.nullCount, x ≤ df.nrows := by
    intro x hx
    obtain ⟨c, hc, rfl⟩ := List.mem_map.1 hx
    calc Column.nullCount c ≤ c.cells.length := List.length_filter_le _ _
    _ = df.nrows := hrect c hc
  have hsum := List.sum_le_card_nsmul (df.cols.map Column.nullCount) df.nrows hcol
  simp only [List.length_map, smul_eq_mul] at hsum
  calc df.nullCells = (df.cols.map Column.nullCount).sum := rfl
  _ ≤ df.cols.length * df.nrows := hsum
  _ = df.nrows * df.ncols := Nat.mul_comm _ _

theorem isEmpty_false_of_totalCells_pos (df : DataFrame) (h : 0 < df.totalCells) :
    df.isEmpty = false := by
  have hr : df.nrows ≠ 0 := by
    intro hz
    rw [DataFrame.totalCells, hz, Nat.zero_mul] at h
    exact absurd h (lt_irrefl 0)
  have hc : ¬df.cols.isEmpty = true := by
    intro hz
    rw [List.isEmpty_iff] at hz
    rw [DataFrame.totalCells, DataFrame.ncols, hz] at h
    simp at h
  simp [DataFrame.isEmpty, hr, hc]

/-- C3 (amended): on every rectangular dataset with at least one cell,
scan_overview succeeds and reports data_quality_score =
(total cells − null cells) / total cells × 100, a score lying in [0, 100] and
equal to 100 exactly when no cell is missing; on a dataset with zero cells
scan_overview instead returns the error result "No data to analyze" (the
zero-guard of the score expression is unreachable), rather than reporting a
score of 0. -/
theorem scan_overview_quality_score :
    (∀ df : DataFrame, df.Rect → 0 < df.totalCells →
      ∃ o, scan_overview df = .ok o ∧
        o.data_quality_score = ((df.totalCells : ℚ) - df.nullCells) / df.totalCells * 100 ∧
        0 ≤ o.data_quality_score ∧ o.data_quality_score ≤ 100 ∧
        (o.data_quality_score = 100 ↔ df.nullCells = 0)) ∧
    (∀ df : DataFrame, df.totalCells = 0 →
      scan_overview df = .error "No data to analyze") := by
  constructor
  · intro df hrect h
    have hempty := isEmpty_false_of_totalCells_pos df h
    have hT : (0 : ℚ) < (df.totalCells : ℚ) := by exact_mod_cast h
    have hN : (0 : ℚ) ≤ (df.nullCells : ℚ) := by positivity
    have hNT : (df.nullCells : ℚ) ≤ (df.totalCells : ℚ) := by
      exact_mod_cast nullCells_le_totalCells df hrect
    have hscore : (overview_core df).data_quality_score =
        ((df.totalCells : ℚ) - df.nullCells) / df.totalCells * 100 := by
      simp [overview_core, if_pos h]
    refine ⟨overview_core df, by simp [scan_overview, hempty], hscore, ?_, ?_, ?_⟩
    · rw [hscore]
      have : (0 : ℚ) ≤ ((df.totalCells : ℚ) - df.nullCells) / df.totalCells :=
        div_nonneg (by linarith) hT.le
      linarith
    · rw [hscore]
      have : ((df.totalCells : ℚ) - df.nullCells) / df.totalCells ≤ 1 :=
        (div_le_one hT).2 (by linarith)
      linarith
    · rw [hscore]
      constructor
      · intro hs
        rw [div_mul_eq_mul_div, div_eq_iff hT.ne'] at hs
        have : (df.nullCells : ℚ) = 0 := by linarith
        exact_mod_cast this
      · intro hz
        rw [hz]
        push_cast
        rw [sub_zero, div_self hT.ne', one_mul]
  · intro df h
    rcases Nat.mul_eq_zero.1 h with hr | hc
    · simp [scan_overview, DataFrame.isEmpty, hr]
    · have : df.cols = [] := List.length_eq_zero.1 hc
      simp [scan_overview, DataFrame.isEmpty, this]

/-- Witness for C3: the age dataset has 5 cells, none missing, so the score
is reported and positive; the empty dataset yields the error result. -/
theorem scan_overview_quality_score_witness :
    (∃ o, scan_overview ageDf = Except.ok o ∧ 0 ≤ o.data_quality_score) ∧
    scan_overview emptyDf = .error "No data to analyze" := by
  constructor
  · obtain ⟨o, h1, _, h3, _⟩ := scan_overview_quality_score.1 ageDf (by decide) (by decide)
    exact ⟨o, h1, h3⟩
  · exact scan_overview_quality_score.2 emptyDf rfl

/-- C3 counterexample: the zero-cell clause of the claim fails on the code.  On
the dataset with zero cells, scan_overview returns the error result and no
overview at all, so no data_quality_score of 0 is reported. -/
theorem scan_overview_zero_cells_no_score :
    scan_overview emptyDf = .error "No data to analyze" ∧
    ¬∃ o, scan_overview emptyDf = .ok o := by
  refine ⟨rfl, ?_⟩
  rintro ⟨o, ho⟩
  rw [show scan_overview emptyDf = .error "No data to analyze" from rfl] at ho
  cases ho

/-- C4: each precondition failure is signaled by an explicit error result
rather than an exception (the embedding is total, so no computation fails):
scan_overview on an empty dataset, analyze_column on an unknown column name,
find_correlations with fewer than 2 numeric columns; the `Except.error`
result carries only the message, no analysis fields. -/
theorem error_result_signaling :
    (∀ df : DataFrame, df.isEmpty = true →
      scan_overview df = .error "No data to analyze") ∧
    (∀ (df : DataFrame) (column : String), column ∉ df.colNames →
      analyze_column df column = .error ("Column \x27" ++ column ++ "\x27 not found")) ∧
    (∀ (df : DataFrame) (t : ℝ), df.numericCols.length < 2 →
      find_correlations df t = .error "Need at least 2 numeric columns for correlation analysis") := by
  refine ⟨fun df h => ?_, fun df column h => ?_, fun df t h => ?_⟩
  · simp [scan_overview, h]
  · have hfind : df.cols.find? (fun c => c.name == column) = none := by
      simp only [List.find?_eq_none, beq_iff_eq]
      intro c hc hn
      exact h (hn ▸ List.mem_map_of_mem Column.name hc)
    simp [analyze_column, hfind]
  · simp [find_correlations, h]

/-- Witness for C4: the three error results on concrete datasets. -/
theorem error_result_signaling_witness :
    scan_overview emptyDf = .error "No data to analyze" ∧
    analyze_column emptyDf "age" = .error ("Column \x27" ++ "age" ++ "\x27 not found") ∧
    find_correlations nameDf (1/2) = .error "Need at least 2 numeric columns for correlation analysis" :=
  ⟨error_result_signaling.1 emptyDf rfl,
   error_result_signaling.2.1 emptyDf "age" (by decide),
   error_result_signaling.2.2 nameDf (1/2) (by decide)⟩

/-- C6: detect_patterns lists a column among the potential ID columns exactly
when its number of distinct (non-missing) values equals the row count and it
has no missing value; in particular the 5-row name column of distinct
non-missing strings is listed. -/
theorem detect_patterns_potential_id_columns :
    (∀ (df : DataFrame) (name : String),
      name ∈ (detect_patterns df).duplicate_patterns.potential_id_columns ↔
        ∃ c ∈ df.cols, c.name = name ∧ c.nunique = df.nrows ∧ c.hasNull = false) ∧
    "name" ∈ (detect_patterns nameDf).duplicate_patterns.potential_id_columns := by
  constructor
  · intro df name
    simp only [detect_patterns, analyze_duplicate_patterns, List.mem_map, List.mem_filter,
      Bool.and_eq_true, beq_iff_eq, Bool.not_eq_true']
    constructor
    · rintro ⟨c, ⟨hc, h1, h2⟩, rfl⟩
      exact ⟨c, hc, rfl, h1, h2⟩
    · rintro ⟨c, hc, rfl, h1, h2⟩
      exact ⟨c, ⟨hc, h1, h2⟩, rfl⟩
  · decide

/-- C10: on a rectangular dataset with zero rows and at least one column,
detect_patterns reports zero duplicate rows, a duplicate percentage of 0 (the
zero-row division is guarded), and lists every column as a potential ID
column; detect_patterns is a total function of the dataset, performing no
empty-dataset error signaling of its own. -/
theorem detect_patterns_zero_rows (df : DataFrame) (hrect : df.Rect)
    (h0 : df.nrows = 0) (hc : 0 < df.ncols) :
    (detect_patterns df).duplicate_patterns.duplicate_rows = 0 ∧
    (detect_patterns df).duplicate_patterns.duplicate_percentage = 0 ∧
    (detect_patterns df).duplicate_patterns.potential_id_columns = df.colNames := by
  have hall : ∀ c ∈ df.cols, c.cells = [] := by
    intro c hcm
    exact List.length_eq_zero.1 ((hrect c hcm).trans h0)
  have hdup : df.duplicateRows = 0 := by
    simp [DataFrame.duplicateRows, DataFrame.rowList, h0, dupCountAux]
  refine ⟨hdup, ?_, ?_⟩
  · simp [detect_patterns, analyze_duplicate_patterns, h0]
  · simp only [detect_patterns, analyze_duplicate_patterns]
    have : df.cols.filter (fun c => c.nunique == df.nrows && !c.hasNull) = df.cols := by
      rw [List.filter_eq_self]
      intro c hcm
      have hcells := hall c hcm
      simp [Column.nunique, Column.nonNull, Column.hasNull, hcells, h0]
    rw [this]
    rfl

/-- Witness for C10: the two-column zero-row dataset. -/
theorem detect_patterns_zero_rows_witness :
    (detect_patterns zeroRowDf).duplicate_patterns.duplicate_rows = 0 ∧
    (detect_patterns zeroRowDf).duplicate_patterns.duplicate_percentage = 0 ∧
    (detect_patterns zeroRowDf).duplicate_patterns.potential_id_columns = zeroRowDf.colNames :=
  detect_patterns_zero_rows zeroRowDf (by decide) (by decide) (by decide)

/-- C7: two calls of analyze_column on the same unmodified instance return
identical results and leave the instance state unchanged: the method is a
deterministic, cache-free function of the stored dataset. -/
theorem analyze_column_idempotent (s : ScannerState) (column : String) :
    (analyze_column_call (analyze_column_call s column).1 column).2 =
      (analyze_column_call s column).2 ∧
    (analyze_column_call (analyze_column_call s column).1 column).1 =
      (analyze_column_call s column).1 ∧
    (analyze_column_call s column).1 = s :=
  ⟨rfl, rfl, rfl⟩

theorem World.step_df (px : String → List Cell → Except String Figure)
    (w : World) (op : Op) :
    (World.step px w op).scanner.df = w.scanner.df ∧
    (World.step px w op).viz.df = w.viz.df ∧
    (World.step px w op).caller = w.caller := by
  cases op <;> exact ⟨rfl, rfl, rfl⟩

/-- C8: no operation sequence on the DataScanner and VisualizationEngine
instances changes either stored dataset or the dataset of the caller: after any
list of calls, both instances still hold the dataset supplied at
construction, and the dataset of the caller is the one it supplied. -/
theorem profiling_no_mutation (px : String → List Cell → Except String Figure)
    (df : DataFrame) (ops : List Op) :
    (ops.foldl (World.step px) (World.init df)).scanner.df = df ∧
    (ops.foldl (World.step px) (World.init df)).viz.df = df ∧
    (ops.foldl (World.step px) (World.init df)).caller = df := by
  have key : ∀ (l : List Op) (w : World),
      (l.foldl (World.step px) w).scanner.df = w.scanner.df ∧
      (l.foldl (World.step px) w).viz.df = w.viz.df ∧
      (l.foldl (World.step px) w).caller = w.caller := by
    intro l
    induction l with
    | nil => intro w; exact ⟨rfl, rfl, rfl⟩
    | cons op rest ih =>
      intro w
      obtain ⟨h1, h2, h3⟩ := ih (World.step px w op)
      obtain ⟨g1, g2, g3⟩ := World.step_df px w op
      exact ⟨h1.trans g1, h2.trans g2, h3.trans g3⟩
  exact key ops (World.init df)

/-- C9: create_column_chart returns `none` — not an error result and not an
exception (the function is total into `Option`) — when the column name is
absent from the dataset, when the column has no non-missing value, or when
the dispatched plotting helper raises (the inapplicable-chart-type case:
the exception is caught and `none` returned). -/
theorem create_column_chart_returns_none (px : String → List Cell → Except String Figure)
    (df : DataFrame) (column_name chart_type : String) :
    (column_name ∉ df.colNames → create_column_chart px df column_name chart_type = none) ∧
    (∀ c, df.cols.find? (fun x => x.name == column_name) = some c → c.nonNull.length = 0 →
      create_column_chart px df column_name chart_type = none) ∧
    ((∀ k s, ∃ msg, px k s = .error msg) →
      create_column_chart px df column_name chart_type = none) := by
  refine ⟨fun h => ?_, fun c hfind h0 => ?_, fun h => ?_⟩
  · have hfind : df.cols.find? (fun x => x.name == column_name) = none := by
      simp only [List.find?_eq_none, beq_iff_eq]
      intro c hc hn
      exact h (hn ▸ List.mem_map_of_mem Column.name hc)
    simp [create_column_chart, hfind]
  · simp [create_column_chart, hfind, h0]
  · rcases hf : df.cols.find? (fun x => x.name == column_name) with _ | c
    · simp [create_column_chart, hf]
    · by_cases h0 : c.nonNull.length = 0
      · simp [create_column_chart, hf, h0]
      · obtain ⟨msg, hmsg⟩ := h (chart_kind c chart_type) c.nonNull
        simp [create_column_chart, hf, h0, hmsg]

/-- Witness for C9: an absent column yields `none`, and a helper that always
raises yields `none` on the age column. -/
theorem create_column_chart_returns_none_witness :
    create_column_chart (fun _ _ => .error "plotly raised") ageDf "missing" "auto" = none ∧
    create_column_chart (fun _ _ => .error "plotly raised") ageDf "age" "box" = none :=
  ⟨(create_column_chart_returns_none (fun _ _ => .error "plotly raised") ageDf "missing" "auto").1
    (by decide),
   (create_column_chart_returns_none (fun _ _ => .error "plotly raised") ageDf "age" "box").2.2
    (fun k s => ⟨"plotly raised", rfl⟩)⟩

/-- C5: generate_insights on an empty dataset is exactly the single-element
no-data list; on every dataset the result has at most 10 entries; and on a
non-empty dataset it is the concatenation of the rule lists in the fixed
source order (quality warning, duplicate suggestion, per-column rules,
top strong correlations) truncated to the first 10. -/
theorem generate_insights_spec :
    (∀ df : DataFrame, df.isEmpty = true →
      generate_insights df = ["No data available for analysis"]) ∧
    (∀ df : DataFrame, (generate_insights df).length ≤ 10) ∧
    (∀ df : DataFrame, df.isEmpty = false →
      generate_insights df =
        (quality_insights (overview_core df) ++ duplicate_insights (overview_core df) ++
          column_insights df ++ correlation_insights df).take 10) := by
  refine ⟨fun df h => ?_, fun df => ?_, fun df h => ?_⟩
  · simp [generate_insights, h]
  · by_cases h : df.isEmpty = true
    · simp [generate_insights, h]
    · simp only [generate_insights, h, Bool.false_eq_true, if_false]
      exact List.length_take_le 10 _
  · simp [generate_insights, h]

/-- Witness for C5: the empty dataset gives the single no-data message, and
the non-empty age dataset is covered by the truncation clause. -/
theorem generate_insights_spec_witness :
    generate_insights emptyDf = ["No data available for analysis"] ∧
    (generate_insights ageDf).length ≤ 10 ∧
    generate_insights ageDf =
      (quality_insights (overview_core ageDf) ++ duplicate_insights (overview_core ageDf) ++
        column_insights ageDf ++ correlation_insights ageDf).take 10 :=
  ⟨generate_insights_spec.1 emptyDf rfl,
   generate_insights_spec.2.1 ageDf,
   generate_insights_spec.2.2 ageDf rfl⟩

/-- C1: for every numeric-dtype column with at least one non-missing value,
analyze_column reports outlier bounds lower = Q1 − 1.5·(Q3 − Q1) and
upper = Q3 + 1.5·(Q3 − Q1) over the non-missing values, counts as outliers
exactly the values strictly outside [lower, upper] (so every reported outlier
value is strictly outside), caps the reported value list at 20 entries; and
on the column age = [20, 21, 22, 23, 1000] the reported outlier count is 1
with outlier value 1000. -/
theorem analyze_column_outlier_bounds :
    (∀ (df : DataFrame) (name : String) (c : Column),
      df.cols.find? (fun x => x.name == name) = some c →
      c.dtype = Dtype.num →
      ∀ v vs, c.numericValues = v :: vs →
      ∃ a st, analyze_column df name = .ok a ∧ a.numeric_stats = some st ∧
        st.outliers = detect_outliers (v :: vs) ∧
        st.outliers.lower_bound =
          quantile (v :: vs) (1/4) -
            3/2 * (quantile (v :: vs) (3/4) - quantile (v :: vs) (1/4)) ∧
        st.outliers.upper_bound =
          quantile (v :: vs) (3/4) +
            3/2 * (quantile (v :: vs) (3/4) - quantile (v :: vs) (1/4)) ∧
        st.outliers.count = ((v :: vs).filter (fun x =>
          decide (x < st.outliers.lower_bound) || decide (st.outliers.upper_bound < x))).length ∧
        (∀ x ∈ st.outliers.outlier_values,
          x < st.outliers.lower_bound ∨ st.outliers.upper_bound < x) ∧
        st.outliers.outlier_values.length ≤ 20) ∧
    (∃ a, analyze_column ageDf "age" = .ok a ∧
      a.numeric_stats.map (fun st => (st.outliers.count, st.outliers.outlier_values)) =
        some (1, [1000])) := by
  constructor
  · intro df name c hfind hdty v vs hvals
    have key : analyze_column df name = .ok
        { column_name := name
          dtype := c.dtype
          count := c.cells.length
          null_count := c.nullCount
          null_percentage :=
            if 0 < c.cells.length then (c.nullCount : ℚ) / c.cells.length * 100 else 0
          unique_count := c.nunique
          unique_percentage :=
            if 0 < c.cells.length then (c.nunique : ℚ) / c.cells.length * 100 else 0
          numeric_stats := some
            { min := vs.foldl Min.min v
              max := vs.foldl Max.max v
              mean := (v :: vs).sum / ((v :: vs).length : ℚ)
              median := quantile (v :: vs) (1/2)
              q25 := quantile (v :: vs) (1/4)
              q75 := quantile (v :: vs) (3/4)
              outliers := detect_outliers (v :: vs) } } := by
      unfold analyze_column
      rw [hfind]
      dsimp only
      rw [hdty, hvals]
    refine ⟨_, _, key, rfl, rfl, rfl, rfl, rfl, ?_, ?_⟩
    · intro x hx
      have hx' := List.mem_of_mem_take hx
      rw [List.mem_filter] at hx'
      have hcond := hx'.2
      simp only [Bool.or_eq_true, decide_eq_true_eq] at hcond
      exact hcond
    · exact List.length_take_le 20 _
  · have houtl : detect_outliers [20, 21, 22, 23, 1000] =
        { count := 1, percentage := 20, lower_bound := 18, upper_bound := 26,
          outlier_values := [1000] } := by
      have hq1 : quantile [20, 21, 22, 23, 1000] (1/4) = 21 := by
        norm_num [quantile, List.insertionSort, List.orderedInsert, List.getD]
      have hq3 : quantile [20, 21, 22, 23, 1000] (3/4) = 23 := by
        norm_num [quantile, List.insertionSort, List.orderedInsert, List.getD,
          show Int.toNat 3 = 3 from rfl]
      simp only [detect_outliers, hq1, hq3]
      norm_num [List.filter]
    refine ⟨_, rfl, ?_⟩
    simp only [Option.map]
    rw [show (20 : ℚ) :: List.filterMap Cell.toNum
      [Cell.num 21, Cell.num 22, Cell.num 23, Cell.num 1000] = [20, 21, 22, 23, 1000] from rfl]
    rw [houtl]

/-- Witness for C1: the age dataset instantiates the general outlier theorem. -/
theorem analyze_column_outlier_bounds_witness :
    ∃ a st, analyze_column ageDf "age" = .ok a ∧ a.numeric_stats = some st ∧
      st.outliers.outlier_values.length ≤ 20 := by
  obtain ⟨a, st, ha, hst, _, _, _, _, _, hlen⟩ :=
    analyze_column_outlier_bounds.1 ageDf "age" ageColumn rfl rfl
      20 [21, 22, 23, 1000] rfl
  exact ⟨a, st, ha, hst, hlen⟩

theorem mem_upperTriangle {n : ℕ} {p : ℕ × ℕ} :
    p ∈ upperTriangle n ↔ p.1 < p.2 ∧ p.2 < n := by
  obtain ⟨i, j⟩ := p
  simp only [upperTriangle, List.mem_flatMap, List.mem_map, List.mem_filter, List.mem_range,
    decide_eq_true_eq, Prod.mk.injEq]
  constructor
  · rintro ⟨a, ha, b, ⟨hb, hab⟩, rfl, rfl⟩
    exact ⟨hab, hb⟩
  · rintro ⟨hij, hjn⟩
    exact ⟨i, lt_trans hij hjn, j, ⟨hjn, hij⟩, rfl, rfl⟩

theorem nodup_upperTriangle (n : ℕ) : (upperTriangle n).Nodup := by
  rw [upperTriangle, List.nodup_flatMap]
  constructor
  · intro i _
    refine List.Nodup.map ?_ ((List.nodup_range n).filter _)
    intro a b hab
    exact congrArg Prod.snd hab
  · refine (List.nodup_range n).imp ?_
    intro a b hne x hx1 hx2
    obtain ⟨j1, _, rfl⟩ := List.mem_map.1 hx1
    obtain ⟨j2, _, heq⟩ := List.mem_map.1 hx2
    exact hne (congrArg Prod.fst heq.symm)

theorem numeric_name_inj {df : DataFrame} (h : (df.numericCols.map Column.name).Nodup)
    {i j : ℕ} (hi : i < df.numericCols.length) (hj : j < df.numericCols.length)
    (he : (df.numericCols.getD i default).name = (df.numericCols.getD j default).name) :
    i = j := by
  have hi' : i < (df.numericCols.map Column.name).length := by simpa using hi
  have hj' : j < (df.numericCols.map Column.name).length := by simpa using hj
  rw [List.getD_eq_getElem _ _ hi, List.getD_eq_getElem _ _ hj] at he
  have h2 : (df.numericCols.map Column.name)[i] = (df.numericCols.map Column.name)[j] := by
    rw [List.getElem_map, List.getElem_map]
    exact he
  exact h.getElem_inj_iff.1 h2

theorem corrEntry?_eq_some {df : DataFrame} {t : ℝ} {p : ℕ × ℕ} {e : CorrEntry}
    (h : corrEntry? df t p = some e) :
    e.column1 = (df.numericCols.getD p.1 default).name ∧
    e.column2 = (df.numericCols.getD p.2 default).name ∧
    corrAt df p.1 p.2 = some e.correlation ∧ t ≤ |e.correlation| ∧
    e.strength = correlation_strength |e.correlation| := by
  rcases hc : corrAt df p.1 p.2 with _ | v
  · simp only [corrEntry?, hc] at h
    exact Option.noConfusion h
  · simp only [corrEntry?, hc] at h
    by_cases ht : t ≤ |v|
    · rw [if_pos ht] at h
      cases h
      exact ⟨rfl, rfl, rfl, ht, rfl⟩
    · rw [if_neg ht] at h
      cases h

theorem corrEntry?_eq_some_of {df : DataFrame} {t : ℝ} {i j : ℕ} {v : ℝ}
    (hc : corrAt df i j = some v) (ht : t ≤ |v|) :
    corrEntry? df t (i, j) = some
      { column1 := (df.numericCols.getD i default).name
        column2 := (df.numericCols.getD j default).name
        correlation := v
        strength := correlation_strength |v| } := by
  simp only [corrEntry?, hc]
  rw [if_pos ht]

theorem pearson_self_example : pearson colA.cells colB.cells = some 1 := by
  have hps : pairedValues colA.cells colB.cells = [(1,1),(2,2),(3,3),(4,4),(5,5)] := rfl
  simp only [pearson, hps]
  norm_num

/-- C2: find_correlations enumerates each unordered pair of distinct numeric
columns at most once (only the upper triangle i < j, never both orders), a
pair is listed exactly when the absolute correlation reaches the threshold,
each strength label is the fixed band of the absolute correlation
(≥0.8 Very Strong, ≥0.6 Strong, ≥0.4 Moderate, ≥0.2 Weak, else Very Weak),
avg_correlation is the mean of the strictly-upper-triangular matrix entries,
and on two identical columns a = b = [1,2,3,4,5] the pair is reported with
correlation 1.0 and strength Very Strong. -/
theorem find_correlations_upper_triangle :
    (∀ (df : DataFrame) (t : ℝ),
      2 ≤ df.numericCols.length →
      (df.numericCols.map Column.name).Nodup →
      ∃ res, find_correlations df t = .ok res ∧
        (∀ e ∈ res.strong_correlations, ∃ i j, i < j ∧ j < df.numericCols.length ∧
          e.column1 = (df.numericCols.getD i default).name ∧
          e.column2 = (df.numericCols.getD j default).name ∧
          corrAt df i j = some e.correlation ∧ t ≤ |e.correlation| ∧
          e.strength = correlation_strength |e.correlation|) ∧
        (res.strong_correlations.map (fun e => (e.column1, e.column2))).Nodup ∧
        (∀ e1 ∈ res.strong_correlations, ∀ e2 ∈ res.strong_correlations,
          ¬(e1.column1 = e2.column2 ∧ e1.column2 = e2.column1)) ∧
        (∀ i j, i < j → j < df.numericCols.length →
          ((∃ e ∈ res.strong_correlations,
              e.column1 = (df.numericCols.getD i default).name ∧
              e.column2 = (df.numericCols.getD j default).name) ↔
            ∃ v, corrAt df i j = some v ∧ t ≤ |v|)) ∧
        res.avg_correlation =
          (if ((upperTriangle df.numericCols.length).map
                (fun p => corrAt df p.1 p.2)).any Option.isNone then none
           else some ((((upperTriangle df.numericCols.length).map
                (fun p => corrAt df p.1 p.2)).filterMap id).sum /
              ((((upperTriangle df.numericCols.length).map
                (fun p => corrAt df p.1 p.2)).length : ℕ) : ℝ)))) ∧
    (∀ v : ℝ,
      (0.8 ≤ v → correlation_strength v = "Very Strong") ∧
      (0.6 ≤ v → v < 0.8 → correlation_strength v = "Strong") ∧
      (0.4 ≤ v → v < 0.6 → correlation_strength v = "Moderate") ∧
      (0.2 ≤ v → v < 0.4 → correlation_strength v = "Weak") ∧
      (v < 0.2 → correlation_strength v = "Very Weak")) ∧
    (∃ res, find_correlations abDf (1/2) = .ok res ∧
      res.strong_correlations =
        [{ column1 := "a", column2 := "b", correlation := 1, strength := "Very Strong" }] ∧
      res.avg_correlation = some 1) := by
  refine ⟨?_, ?_, ?_⟩
  · intro df t hn hnames
    have hok : find_correlations df t = .ok ⟨strongList df t, avgVal df⟩ := by
      unfold find_correlations
      rw [if_neg (Nat.not_lt.2 hn)]
    have hmem : ∀ e ∈ strongList df t, ∃ i j, i < j ∧ j < df.numericCols.length ∧
        e.column1 = (df.numericCols.getD i default).name ∧
        e.column2 = (df.numericCols.getD j default).name ∧
        corrAt df i j = some e.correlation ∧ t ≤ |e.correlation| ∧
        e.strength = correlation_strength |e.correlation| := by
      intro e he
      simp only [strongList] at he
      obtain ⟨p, hp, hpe⟩ := List.mem_filterMap.1 he
      obtain ⟨hij, hjn⟩ := mem_upperTriangle.1 hp
      obtain ⟨h1, h2, h3, h4, h5⟩ := corrEntry?_eq_some hpe
      exact ⟨p.1, p.2, hij, hjn, h1, h2, h3, h4, h5⟩
    refine ⟨⟨strongList df t, avgVal df⟩, hok, hmem, ?_, ?_, ?_, rfl⟩
    · -- no unordered pair appears twice
      simp only [strongList, List.Nodup] at *
      rw [List.pairwise_map, List.pairwise_filterMap]
      refine List.Pairwise.imp_of_mem ?_ (nodup_upperTriangle df.numericCols.length)
      intro p q hp hq hne e1 he1 e2 he2 heq
      rw [Option.mem_def] at he1 he2
      obtain ⟨hij1, hjn1⟩ := mem_upperTriangle.1 hp
      obtain ⟨hij2, hjn2⟩ := mem_upperTriangle.1 hq
      obtain ⟨h11, h12, _, _, _⟩ := corrEntry?_eq_some he1
      obtain ⟨h21, h22, _, _, _⟩ := corrEntry?_eq_some he2
      have heq1 : e1.column1 = e2.column1 := congrArg Prod.fst heq
      have heq2 : e1.column2 = e2.column2 := congrArg Prod.snd heq
      have hfst : p.1 = q.1 :=
        numeric_name_inj hnames (lt_trans hij1 hjn1) (lt_trans hij2 hjn2)
          (h11.symm.trans (heq1.trans h21))
      have hsnd : p.2 = q.2 :=
        numeric_name_inj hnames hjn1 hjn2 (h12.symm.trans (heq2.trans h22))
      exact hne (Prod.ext hfst hsnd)
    · -- never both (i, j) and (j, i)
      rintro e1 he1 e2 he2 ⟨h12, h21⟩
      obtain ⟨i1, j1, hij1, hjn1, hc11, hc12, _, _, _⟩ := hmem e1 he1
      obtain ⟨i2, j2, hij2, hjn2, hc21, hc22, _, _, _⟩ := hmem e2 he2
      have ha : i1 = j2 :=
        numeric_name_inj hnames (lt_trans hij1 hjn1) hjn2
          (hc11.symm.trans (h12.trans hc22))
      have hb : j1 = i2 :=
        numeric_name_inj hnames hjn1 (lt_trans hij2 hjn2)
          (hc12.symm.trans (h21.trans hc21))
      omega
    · -- membership iff the absolute correlation reaches the threshold
      intro i j hij hjn
      constructor
      · rintro ⟨e, he, h1, h2⟩
        obtain ⟨i', j', hij', hjn', hc1, hc2, hcor, ht, _⟩ := hmem e he
        have hi : i' = i :=
          numeric_name_inj hnames (lt_trans hij' hjn') (lt_trans hij hjn)
            (hc1.symm.trans h1)
        have hj : j' = j := numeric_name_inj hnames hjn' hjn (hc2.symm.trans h2)
        rw [hi, hj] at hcor
        exact ⟨e.correlation, hcor, ht⟩
      · rintro ⟨v, hc, ht⟩
        refine ⟨{ column1 := (df.numericCols.getD i default).name
                  column2 := (df.numericCols.getD j default).name
                  correlation := v
                  strength := correlation_strength |v| }, ?_, rfl, rfl⟩
        simp only [strongList]
        exact List.mem_filterMap.2
          ⟨(i, j), mem_upperTriangle.2 ⟨hij, hjn⟩, corrEntry?_eq_some_of hc ht⟩
  · intro v
    refine ⟨fun h => ?_, fun h1 h2 => ?_, fun h1 h2 => ?_, fun h1 h2 => ?_, fun h => ?_⟩
    · unfold correlation_strength
      rw [if_pos h]
    · unfold correlation_strength
      rw [if_neg (by linarith), if_pos h1]
    · unfold correlation_strength
      rw [if_neg (by linarith), if_neg (by linarith), if_pos h1]
    · unfold correlation_strength
      rw [if_neg (by linarith), if_neg (by linarith), if_neg (by linarith), if_pos h1]
    · unfold correlation_strength
      rw [if_neg (by linarith), if_neg (by linarith), if_neg (by linarith),
        if_neg (by linarith)]
  · have hcorr01 : corrAt abDf 0 1 = some 1 := pearson_self_example
    have hlist : upperTriangle abDf.numericCols.length = [(0, 1)] := rfl
    have hcs : correlation_strength |(1 : ℝ)| = "Very Strong" := by
      unfold correlation_strength
      rw [abs_one, if_pos (by norm_num : (0.8 : ℝ) ≤ 1)]
    have hentry : corrEntry? abDf (1/2) (0, 1) =
        some { column1 := "a", column2 := "b", correlation := 1, strength := "Very Strong" } := by
      have hstep := corrEntry?_eq_some_of hcorr01 (by rw [abs_one]; norm_num : (1/2 : ℝ) ≤ |(1:ℝ)|)
      rw [hstep, hcs]
      rfl
    have hstrong : strongList abDf (1/2) =
        [{ column1 := "a", column2 := "b", correlation := 1, strength := "Very Strong" }] := by
      simp only [strongList, hlist, List.filterMap_cons, hentry, List.filterMap_nil]
    have havg : avgVal abDf = some 1 := by
      unfold avgVal
      rw [hlist]
      simp only [List.map_cons, List.map_nil, hcorr01]
      norm_num [List.filterMap_cons, List.filterMap_nil]
    have hok2 : find_correlations abDf (1/2) = .ok ⟨strongList abDf (1/2), avgVal abDf⟩ := by
      unfold find_correlations
      rw [if_neg (by decide : ¬(abDf.numericCols.length < 2))]
    exact ⟨_, hok2, hstrong, havg⟩

/-- Witness for C2: the identical-columns dataset instantiates the theorem. -/
theorem find_correlations_upper_triangle_witness :
    ∃ res, find_correlations abDf (1/2) = .ok res ∧
      (res.strong_correlations.map (fun e => (e.column1, e.column2))).Nodup := by
  obtain ⟨res, hok, _, hnodup, _, _, _⟩ :=
    find_correlations_upper_triangle.1 abDf (1/2) (by decide) (by decide)
  exact ⟨res, hok, hnodup⟩
